import Mathlib

/-!
Shallow embedding of `entt::compressed_pair` (src/entt/core/compressed_pair.hpp)
and its internal building block `compressed_pair_element`.

The C++ container picks, per slot and at compile time, one of two storage
strategies: the boxed primary template keeps the payload as a named data
member `value`, while the EBCO specialization (enabled when
`is_ebco_eligible_v<Type>` holds) inherits from the payload type and stores
it as a base subobject.  The eligibility trait is an external black box, so
the embedding is parametric in the chosen `Strategy` of each slot and every
theorem quantifies over both strategies, covering the all-boxed, the mixed
and the all-merged layouts at once.

Member functions returning references are modelled as pure reads
(`first`, `second`, `elem_get`) together with the write through the
returned reference (`setFirst`, `setSecond`, `elem_set`).  Operations that
the C++ code performs on two objects in place (copy construction, copy
assignment, swap) are modelled as state transformers returning the
after-states of every object involved, so that claims about the source
object being left unchanged are expressible.
-/

namespace Entt

/-- The storage strategy a slot resolves to at compile time: the boxed
primary template of `compressed_pair_element`, or the merged (EBCO)
specialization selected when `is_ebco_eligible_v<Type>` holds. -/
inductive Strategy where
  | boxed : Strategy
  | merged : Strategy
deriving DecidableEq

/-- The boxed primary template `compressed_pair_element<Type, Tag, void>`:
the payload is the named data member `Type value`. -/
structure BoxedElement (α : Type) (tag : Nat) where
  value : α

/-- The merged specialization
`compressed_pair_element<Type, Tag, enable_if is_ebco_eligible> : Type`:
the payload is the inherited `Type` base subobject (`*this` seen as `Type`). -/
structure MergedElement (α : Type) (tag : Nat) where
  toBase : α

/-- `internal::compressed_pair_element<Type, Tag>` under a given strategy. -/
@[reducible] def compressed_pair_element (α : Type) (tag : Nat) : Strategy → Type
  | Strategy.boxed => BoxedElement α tag
  | Strategy.merged => MergedElement α tag

/-- `get()`: the boxed element returns `value`, the merged element returns
`*this` converted to `Type` (its base subobject).  The const and non-const
overloads read the same subobject, hence one function. -/
def elem_get {α : Type} {tag : Nat} : {s : Strategy} → compressed_pair_element α tag s → α
  | Strategy.boxed, e => BoxedElement.value e
  | Strategy.merged, e => MergedElement.toBase e

/-- Assignment through the reference that `get()` returns: it overwrites the
payload subobject (the `value` member, resp. the `Type` base) and nothing
else. -/
def elem_set {α : Type} {tag : Nat} : {s : Strategy} → compressed_pair_element α tag s → α → compressed_pair_element α tag s
  | Strategy.boxed, _, a => BoxedElement.mk a
  | Strategy.merged, _, a => MergedElement.mk a

/-- The default constructor of `compressed_pair_element`, enabled by
`enable_if` only when `Type` is default constructible; default
constructibility is modelled by the `Inhabited` instance and
value-initialization `value{}` / `Type{}` by its `default` element. -/
def elem_default (α : Type) (tag : Nat) [Inhabited α] : (s : Strategy) → compressed_pair_element α tag s
  | Strategy.boxed => BoxedElement.mk default
  | Strategy.merged => MergedElement.mk default

/-- The forwarding single-argument constructor of `compressed_pair_element`:
initializes the payload from the forwarded argument. -/
def elem_fwd {α : Type} (tag : Nat) (s : Strategy) (a : α) : compressed_pair_element α tag s :=
  match s with
  | Strategy.boxed => BoxedElement.mk a
  | Strategy.merged => MergedElement.mk a

/-- The pack expansion `std::get<Index>(args)...`: the arguments of the
tuple `args` picked at the positions listed in the index sequence `idx`,
in the order of `idx` (argument sequences are modelled homogeneously as
lists). -/
def tupleSelect {A : Type} (args : List A) (idx : List Nat) : List A :=
  idx.filterMap fun i => args[i]?

/-- `std::index_sequence_for<Args...>`: the indices 0, 1, ..., n-1 for an
argument pack of length n. -/
def indexSequenceFor {A : Type} (args : List A) : List Nat :=
  List.range args.length

/-- The piecewise constructor of `compressed_pair_element`: it initializes
the payload as `Type{std::get<Index>(args)...}`, i.e. it applies the
constructor of `Type` (modelled as the function `ctor`) to the arguments
selected by the index sequence. -/
def elem_piecewise {α A : Type} (tag : Nat) (s : Strategy) (ctor : List A → α) (args : List A) (idx : List Nat) : compressed_pair_element α tag s :=
  match s with
  | Strategy.boxed => BoxedElement.mk (ctor (tupleSelect args idx))
  | Strategy.merged => MergedElement.mk (ctor (tupleSelect args idx))

/-- `entt::compressed_pair<First, Second>`: privately derives from
`compressed_pair_element<First, 0u>` (`first_base`) and
`compressed_pair_element<Second, 1u>` (`second_base`); the strategy of each
base is fixed independently at compile time. -/
structure compressed_pair (α β : Type) (sf ss : Strategy) where
  first_base : compressed_pair_element α 0 sf
  second_base : compressed_pair_element β 1 ss

namespace compressed_pair

variable {α β : Type} {sf ss : Strategy}

/-- `first()`: `static_cast<first_base &>(*this).get()`.  Const and
non-const overloads read the same subobject. -/
def first (p : compressed_pair α β sf ss) : α :=
  elem_get p.first_base

/-- `second()`: `static_cast<second_base &>(*this).get()`. -/
def second (p : compressed_pair α β sf ss) : β :=
  elem_get p.second_base

/-- Assignment through the `First &` reference returned by `first()`. -/
def setFirst (p : compressed_pair α β sf ss) (a : α) : compressed_pair α β sf ss :=
  { p with first_base := elem_set p.first_base a }

/-- Assignment through the `Second &` reference returned by `second()`. -/
def setSecond (p : compressed_pair α β sf ss) (b : β) : compressed_pair α β sf ss :=
  { p with second_base := elem_set p.second_base b }

/-- The default constructor, enabled by `enable_if` only when both `First`
and `Second` are default constructible (modelled by the two `Inhabited`
instances); it default-constructs both bases. -/
def default_ctor (α β : Type) [Inhabited α] [Inhabited β] (sf ss : Strategy) : compressed_pair α β sf ss :=
  { first_base := elem_default α 0 sf, second_base := elem_default β 1 ss }

/-- The two-value constructor `compressed_pair(Arg &&, Other &&)`: forwards
one argument to each base. -/
def value_ctor (sf ss : Strategy) (a : α) (b : β) : compressed_pair α β sf ss :=
  { first_base := elem_fwd 0 sf a, second_base := elem_fwd 1 ss b }

/-- The piecewise constructor
`compressed_pair(std::piecewise_construct_t, std::tuple<Args...>, std::tuple<Other...>)`:
each base is built from its own argument tuple together with
`std::index_sequence_for` over that tuple. -/
def piecewise_ctor {A B : Type} (sf ss : Strategy) (ctorA : List A → α) (args : List A) (ctorB : List B → β) (other : List B) : compressed_pair α β sf ss :=
  { first_base := elem_piecewise 0 sf ctorA args (indexSequenceFor args),
    second_base := elem_piecewise 1 ss ctorB other (indexSequenceFor other) }

/-- The defaulted copy constructor: memberwise copy of both bases.  The
result pairs the newly constructed object with the after-state of the
source, which copy construction does not modify. -/
def copy_ctor (src : compressed_pair α β sf ss) : compressed_pair α β sf ss × compressed_pair α β sf ss :=
  ({ first_base := src.first_base, second_base := src.second_base }, src)

/-- The defaulted copy assignment operator: memberwise copy assignment of
both bases into `dst`.  The result pairs the after-state of `dst` with the
after-state of the source. -/
def copy_assign (dst src : compressed_pair α β sf ss) : compressed_pair α β sf ss × compressed_pair α β sf ss :=
  ({ dst with first_base := src.first_base, second_base := src.second_base }, src)

/-- `std::swap` applied to two lvalues: the generic exchange leaves each
object holding the other's previous value. -/
def std_swap {γ : Type} (a b : γ) : γ × γ :=
  (b, a)

/-- `compressed_pair::swap(other)`: `swap(first(), other.first())` followed
by `swap(second(), other.second())`, each through the references returned
by the accessors.  The result is the after-state of `*this` paired with the
after-state of `other`. -/
def swap (lhs rhs : compressed_pair α β sf ss) : compressed_pair α β sf ss × compressed_pair α β sf ss :=
  let r1 := std_swap lhs.first rhs.first
  let lhs1 := lhs.setFirst r1.1
  let rhs1 := rhs.setFirst r1.2
  let r2 := std_swap lhs1.second rhs1.second
  (lhs1.setSecond r2.1, rhs1.setSecond r2.2)

end compressed_pair

/-- The free function `swap(compressed_pair &lhs, compressed_pair &rhs)`:
it calls `lhs.swap(rhs)`. -/
def swap {α β : Type} {sf ss : Strategy} (lhs rhs : compressed_pair α β sf ss) : compressed_pair α β sf ss × compressed_pair α β sf ss :=
  lhs.swap rhs

/-- Selecting with the identity index sequence reproduces the argument
tuple unchanged, in order. -/
theorem tupleSelect_indexSequenceFor {A : Type} (args : List A) :
    tupleSelect args (indexSequenceFor args) = args := by
  induction args with
  | nil => rfl
  | cons a l ih =>
      simp only [tupleSelect, indexSequenceFor, List.length_cons, List.range_succ_eq_map,
        List.filterMap_cons, List.filterMap_map]
      simp only [Function.comp_def, List.getElem?_cons_succ, List.getElem?_cons_zero]
      simpa [tupleSelect, indexSequenceFor] using ih

/-- Reading through `get()` an element built by the forwarding constructor
yields the forwarded value, under either strategy. -/
@[simp] theorem elem_get_fwd {α : Type} (tag : Nat) (s : Strategy) (a : α) :
    elem_get (elem_fwd tag s a) = a := by
  cases s <;> rfl

/-- Reading through `get()` a default-constructed element yields the
default value, under either strategy. -/
@[simp] theorem elem_get_default {α : Type} (tag : Nat) [Inhabited α] (s : Strategy) :
    elem_get (elem_default α tag s) = default := by
  cases s <;> rfl

/-- Reading back through `get()` after writing through the reference it
returned yields the written value, under either strategy. -/
@[simp] theorem elem_get_set {α : Type} {tag : Nat} {s : Strategy}
    (e : compressed_pair_element α tag s) (a : α) :
    elem_get (elem_set e a) = a := by
  cases s <;> rfl

/-- Writing back the value just read leaves the element unchanged, under
either strategy. -/
@[simp] theorem elem_set_get {α : Type} {tag : Nat} {s : Strategy}
    (e : compressed_pair_element α tag s) :
    elem_set e (elem_get e) = e := by
  cases s <;> rfl

namespace compressed_pair

variable {α β : Type} {sf ss : Strategy}

/-- `first()` after an assignment through the reference `first()` returned
sees the assigned value. -/
@[simp] theorem first_setFirst (p : compressed_pair α β sf ss) (a : α) :
    (p.setFirst a).first = a := by
  simp [setFirst, first]

/-- An assignment through the reference `first()` returned does not change
what `second()` returns. -/
@[simp] theorem second_setFirst (p : compressed_pair α β sf ss) (a : α) :
    (p.setFirst a).second = p.second :=
  rfl

/-- `second()` after an assignment through the reference `second()`
returned sees the assigned value. -/
@[simp] theorem second_setSecond (p : compressed_pair α β sf ss) (b : β) :
    (p.setSecond b).second = b := by
  simp [setSecond, second]

/-- An assignment through the reference `second()` returned does not change
what `first()` returns. -/
@[simp] theorem first_setSecond (p : compressed_pair α β sf ss) (b : β) :
    (p.setSecond b).first = p.first :=
  rfl

/-- Writing back through `first()` the value `first()` currently holds
leaves the whole pair unchanged. -/
@[simp] theorem setFirst_first (p : compressed_pair α β sf ss) :
    p.setFirst p.first = p := by
  simp [setFirst, first]

/-- Writing back through `second()` the value `second()` currently holds
leaves the whole pair unchanged. -/
@[simp] theorem setSecond_second (p : compressed_pair α β sf ss) :
    p.setSecond p.second = p := by
  simp [setSecond, second]

end compressed_pair

/-- Claim C1: for all constructible values a and b and every slot layout,
the pair built from the two values by the two-value constructor satisfies
first() == a and second() == b. -/
theorem value_ctor_first_second {α β : Type} (sf ss : Strategy) (a : α) (b : β) :
    (compressed_pair.value_ctor sf ss a b).first = a ∧
    (compressed_pair.value_ctor sf ss a b).second = b := by
  cases sf <;> cases ss <;> exact ⟨rfl, rfl⟩

/-- Claim C2: for every two pairs p and q, after p.swap(q) the after-state
of p holds the old first() and second() of q and the after-state of q holds
the old first() and second() of p; the strategies sf and ss range over both
layouts, so this covers the all-boxed and the mixed merged/boxed cases. -/
theorem swap_exchanges {α β : Type} (sf ss : Strategy) (p q : compressed_pair α β sf ss) :
    ((p.swap q).1.first = q.first ∧ (p.swap q).1.second = q.second) ∧
    ((p.swap q).2.first = p.first ∧ (p.swap q).2.second = p.second) := by
  simp [compressed_pair.swap, compressed_pair.std_swap]

/-- Claim C3: the free function swap(lhs, rhs) and the member operation
lhs.swap(rhs) are the same state transformer on every pair of inputs. -/
theorem swap_free_eq_member {α β : Type} (sf ss : Strategy)
    (lhs rhs : compressed_pair α β sf ss) :
    Entt.swap lhs rhs = lhs.swap rhs :=
  rfl

/-- Claim C4: piecewise construction forwards each argument sequence,
element by element and in argument order, to the matching element
constructor: the resulting pair satisfies first() == First{args...} and
second() == Second{other...}. -/
theorem piecewise_ctor_first_second {α β A B : Type} (sf ss : Strategy)
    (ctorA : List A → α) (args : List A) (ctorB : List B → β) (other : List B) :
    (compressed_pair.piecewise_ctor sf ss ctorA args ctorB other).first = ctorA args ∧
    (compressed_pair.piecewise_ctor sf ss ctorA args ctorB other).second = ctorB other := by
  constructor <;> cases sf <;> cases ss <;>
    simp [compressed_pair.piecewise_ctor, compressed_pair.first, compressed_pair.second,
      elem_piecewise, elem_get, tupleSelect_indexSequenceFor]

/-- Claim C5: copying a pair, by copy construction or copy assignment,
yields a pair whose first() and second() equal the originals, and the
source pair is left unchanged by the copy. -/
theorem copy_roundtrip {α β : Type} (sf ss : Strategy)
    (src dst : compressed_pair α β sf ss) :
    ((compressed_pair.copy_ctor src).1.first = src.first ∧
     (compressed_pair.copy_ctor src).1.second = src.second ∧
     (compressed_pair.copy_ctor src).2 = src) ∧
    ((compressed_pair.copy_assign dst src).1.first = src.first ∧
     (compressed_pair.copy_assign dst src).1.second = src.second ∧
     (compressed_pair.copy_assign dst src).2 = src) :=
  ⟨⟨rfl, rfl, rfl⟩, ⟨rfl, rfl, rfl⟩⟩

/-- Claim C6: default construction requires both element types to be
default constructible (the two Inhabited instances model the enable_if
condition of the C++ constructor) and default-constructs both slots, so
first() and second() each hold a default value. -/
theorem default_ctor_defaults {α β : Type} [Inhabited α] [Inhabited β] (sf ss : Strategy) :
    (compressed_pair.default_ctor α β sf ss).first = default ∧
    (compressed_pair.default_ctor α β sf ss).second = default := by
  cases sf <;> cases ss <;> exact ⟨rfl, rfl⟩

/-- Claim C7: the boxed element (value held as a named member) and the
merged element (value held as the inherited base subobject) are
observationally equivalent: for the same construction inputs, default,
forwarding or piecewise, get() yields the same logical value on both
representations, for every payload type. -/
theorem boxed_merged_indistinguishable {α : Type} [Inhabited α] (tag : Nat) :
    (elem_get (elem_default α tag Strategy.boxed)
      = elem_get (elem_default α tag Strategy.merged)) ∧
    (∀ a : α, elem_get (elem_fwd tag Strategy.boxed a)
      = elem_get (elem_fwd tag Strategy.merged a)) ∧
    (∀ (A : Type) (ctor : List A → α) (args : List A) (idx : List Nat),
      elem_get (elem_piecewise tag Strategy.boxed ctor args idx)
        = elem_get (elem_piecewise tag Strategy.merged ctor args idx)) :=
  ⟨rfl, fun _ => rfl, fun _ _ _ _ => rfl⟩

/-- Claim C9: the accessors are total on every constructed pair and have no
side effects: the reference they return denotes exactly the stored logical
value, writing a value through it is read back exactly, and writing back
the value just read leaves the pair unchanged, under every layout. -/
theorem accessors_total_no_side_effects {α β : Type} (sf ss : Strategy)
    (p : compressed_pair α β sf ss) (a : α) (b : β) :
    (p.setFirst a).first = a ∧ (p.setSecond b).second = b ∧
    p.setFirst p.first = p ∧ p.setSecond p.second = p := by
  simp

/-- Claim C10: the two slots never alias: assigning through the reference
returned by first() leaves second() unchanged and vice versa, also when
both element types are the same type stored under the same strategy (the
distinct tags 0 and 1 keep the two bases distinct). -/
theorem slot_independence {α β : Type} (sf ss : Strategy)
    (p : compressed_pair α β sf ss) (a : α) (b : β) :
    ((p.setFirst a).second = p.second ∧ (p.setSecond b).first = p.first) ∧
    (∀ (γ : Type) (sg : Strategy) (q : compressed_pair γ γ sg sg) (c d : γ),
      (q.setFirst c).second = q.second ∧ (q.setSecond d).first = q.first) :=
  ⟨⟨rfl, rfl⟩, fun _ _ _ _ _ => ⟨rfl, rfl⟩⟩

end Entt
